import Mathlib

/-!
Formal model of the Shortly clip pipeline (analysis worker, extraction worker,
download worker, caption pipeline and database constraints), shallowly embedded
over exact rational arithmetic (`ℚ` for JavaScript numbers, `Int.floor` for
`Math.floor`). Transcript and caption text is modelled as lists of lowercase
word tokens, so the word-boundary regexes of the source become token matching.
-/

namespace Shortly

/-! ## Audio analyzer (analyzers/audio.ts) -/

/-- A `{start, end}` silence interval; the source field `end` is a Lean keyword
and is embedded as `stop`. -/
structure SilencePeriod where
  start : ℚ
  stop : ℚ
deriving DecidableEq, Repr

/-- A `{timestamp, volume}` loud moment. -/
structure LoudMoment where
  timestamp : ℚ
  volume : ℚ
deriving DecidableEq, Repr

/-- The `AudioAnalysis` record of analyzers/audio.ts. -/
structure AudioAnalysis where
  averageVolume : ℚ
  peakVolume : ℚ
  volumeVariance : ℚ
  silencePeriods : List SilencePeriod
  loudMoments : List LoudMoment
  energyScore : ℚ
deriving DecidableEq, Repr

/-- `scoreAudioEngagement` of analyzers/audio.ts: energy 0.4, dynamic range 0.3,
loud-moment density 0.2, minus silence penalty 0.1, clamped into `[0,1]`. -/
def scoreAudioEngagement (analysis : AudioAnalysis) : ℚ :=
  let score0 := analysis.energyScore * 0.4
  let dynamicScore := min 1 (analysis.volumeVariance / 20)
  let score1 := score0 + dynamicScore * 0.3
  let loudMomentScore := min 1 ((analysis.loudMoments.length : ℚ) / 5)
  let score2 := score1 + loudMomentScore * 0.2
  let totalSilence := analysis.silencePeriods.foldl (fun sum p => sum + (p.stop - p.start)) 0
  let silencePenalty := min 1 (totalSilence / 10)
  let score3 := score2 - silencePenalty * 0.1
  max 0 (min 1 score3)

/-! ## Scene analyzer (analyzers/scene.ts) -/

/-- A `{timestamp, score}` scene change. -/
structure SceneChange where
  timestamp : ℚ
  score : ℚ
deriving DecidableEq, Repr

/-- A `{start, end}` scene; `end` is embedded as `stop`. -/
structure Scene where
  start : ℚ
  stop : ℚ
deriving DecidableEq, Repr

/-- The `SceneAnalysis` record of analyzers/scene.ts. -/
structure SceneAnalysis where
  scenes : List Scene
  sceneChanges : List SceneChange
  averageSceneLength : ℚ
  sceneChangeRate : ℚ
deriving DecidableEq, Repr

/-- `scoreVisualEngagement` of analyzers/scene.ts: rate closeness to 8/min
weighted 0.6 plus a 0.4 variety bonus, clamped into `[0,1]`. -/
def scoreVisualEngagement (analysis : SceneAnalysis) : ℚ :=
  let idealRate : ℚ := 8
  let rateDiff := |analysis.sceneChangeRate - idealRate|
  let rateScore := max 0 (1 - rateDiff / idealRate)
  let score0 := rateScore * 0.6
  let score1 := score0 + (if analysis.scenes.length > 1 then 0.4 else 0)
  max 0 (min 1 score1)

/-! ## Speech analyzer (analyzers/speech.ts) -/

/-- A `Transcript` of analyzers/speech.ts; `text` is modelled as the list of
lowercase word tokens of the transcribed text. -/
structure Transcript where
  text : List String
  startTime : ℚ
  endTime : ℚ
deriving DecidableEq, Repr

/-- A `{phrase, timestamp, score}` viral-trigger hit. -/
structure ViralTrigger where
  phrase : String
  timestamp : ℚ
  score : ℚ
deriving DecidableEq, Repr

/-- The `SpeechAnalysis` record of analyzers/speech.ts. -/
structure SpeechAnalysis where
  transcripts : List Transcript
  totalWords : ℕ
  speechDensity : ℚ
  keyPhrases : List String
  viralTriggers : List ViralTrigger
  speechScore : ℚ
deriving DecidableEq, Repr

/-! ## Retention scoring (analyzers/retention.ts, the hook-aware revision) -/

/-- Does the token sequence `pat` occur contiguously in `l`?  This models a
multi-word regex alternative such as `did you know` on tokenized text. -/
def hasSeq (pat : List String) : List String → Bool
  | [] => pat.isEmpty
  | w :: rest => pat.isPrefixOf (w :: rest) || hasSeq pat rest

/-- Single-word alternatives of the `detectHook` question regex
`\b(what|how|why|did you know|imagine|watch)\b`. -/
def questionHookWords : List String := ["what", "how", "why", "imagine", "watch"]

/-- The multi-word alternative `did you know` of the question-hook regex. -/
def questionHookPhrase : List String := ["did", "you", "know"]

/-- Single-word alternatives of the `detectHook` excitement regex
`\b(wait|no way|crazy|insane|shocking|unbelievable)\b`. -/
def excitementHookWords : List String := ["wait", "crazy", "insane", "shocking", "unbelievable"]

/-- The multi-word alternative `no way` of the excitement-hook regex. -/
def excitementHookPhrase : List String := ["no", "way"]

/-- Token-level test of the question-hook regex on transcript text. -/
def matchesQuestionHook (text : List String) : Bool :=
  text.any (fun w => questionHookWords.contains w) || hasSeq questionHookPhrase text

/-- Token-level test of the excitement-hook regex on transcript text. -/
def matchesExcitementHook (text : List String) : Bool :=
  text.any (fun w => excitementHookWords.contains w) || hasSeq excitementHookPhrase text

/-- `detectHook` of retention.ts: a speech hook or an audio hook in the first
3 s, and a position before 30% of the video. -/
def detectHook (speech : SpeechAnalysis) (audio : AudioAnalysis) (position : ℚ) : Bool :=
  let earlyTranscripts := speech.transcripts.filter (fun t => t.startTime < 3)
  let hasQuestionHook := earlyTranscripts.any (fun t => matchesQuestionHook t.text)
  let hasExcitementHook := earlyTranscripts.any (fun t => matchesExcitementHook t.text)
  let hasAudioHook := audio.loudMoments.any (fun m => decide (m.timestamp < 3))
  (hasQuestionHook || hasExcitementHook || hasAudioHook) && decide (position < 0.3)

/-- `applyPositionBonus` of retention.ts. -/
def applyPositionBonus (score position : ℚ) : ℚ :=
  if 0.3 ≤ position ∧ position ≤ 0.7 then score * 1.05
  else if position < 0.15 ∨ position > 0.85 then score * 0.95
  else score

/-- `applyDurationBonus` of retention.ts. -/
def applyDurationBonus (score duration : ℚ) : ℚ :=
  if 30 ≤ duration ∧ duration ≤ 45 then score * 1.03
  else if duration < 15 ∨ duration > 60 then score * 0.95
  else score

/-- `calculateConfidence` of retention.ts. -/
def calculateConfidence (audio : AudioAnalysis) (scene : SceneAnalysis)
    (speech : SpeechAnalysis) : ℚ :=
  let c0 : ℚ := 0.5
  let c1 := if audio.loudMoments.length > 0 then c0 + 0.15 else c0
  let c2 := if audio.silencePeriods.length ≥ 0 then c1 + 0.1 else c1
  let c3 := if scene.sceneChanges.length > 0 then c2 + 0.15 else c2
  let c4 := if speech.totalWords > 0 then c3 + 0.2 else c3
  let c5 := if speech.viralTriggers.length > 0 then c4 + 0.1 else c4
  min 1 c5

/-- The dominant factor in `generateReason`: the stable descending sort of the
entries `audio, visual, speech` puts the first maximal key first. -/
def dominantFactor (audioScore visualScore speechScore : ℚ) : String :=
  if audioScore ≥ visualScore ∧ audioScore ≥ speechScore then "audio"
  else if visualScore ≥ speechScore then "visual"
  else "speech"

/-- `generateReason` of retention.ts. -/
def generateReason (audioScore visualScore speechScore compositeScore : ℚ) : String :=
  let factor := dominantFactor audioScore visualScore speechScore
  if compositeScore ≥ 0.95 then "Peak engagement detected - " ++ factor ++ " signals are exceptional 🔥"
  else if compositeScore ≥ 0.9 then "High retention moment - strong " ++ factor ++ " performance ⚡"
  else if compositeScore ≥ 0.85 then "Elevated engagement - " ++ factor ++ " indicators are very good ✨"
  else if compositeScore ≥ 0.8 then "Above-average retention - good " ++ factor ++ " signals 📈"
  else if compositeScore ≥ 0.75 then "Solid engagement - " ++ factor ++ " shows promise 💡"
  else if compositeScore ≥ 0.7 then "Moderate retention - adequate " ++ factor ++ " 👍"
  else "Standard segment - baseline " ++ factor ++ " 📊"

/-- The `signals` map of a `RetentionAnalysis`. -/
structure Signals where
  audio : ℚ
  visual : ℚ
  speech : ℚ
  engagement : ℚ
deriving DecidableEq, Repr

/-- The `RetentionAnalysis` record of retention.ts. -/
structure RetentionAnalysis where
  compositeScore : ℚ
  audioScore : ℚ
  visualScore : ℚ
  speechScore : ℚ
  confidence : ℚ
  signals : Signals
  reason : String
deriving DecidableEq, Repr

/-- The `segmentMetadata` argument of `calculateRetentionScore`. -/
structure SegmentMetadata where
  position : ℚ
  duration : ℚ
  totalDuration : ℚ
deriving DecidableEq, Repr

/-- `calculateRetentionScore` of retention.ts (hook-aware revision): hook boost
on the speech score, weighted composite 0.40/0.35/0.25, position and duration
bonuses, clamp of the returned `compositeScore` field only. -/
def calculateRetentionScore (audioAnalysis : AudioAnalysis) (sceneAnalysis : SceneAnalysis)
    (speechAnalysis : SpeechAnalysis) (segmentMetadata : SegmentMetadata) : RetentionAnalysis :=
  let audioScore := scoreAudioEngagement audioAnalysis
  let visualScore := scoreVisualEngagement sceneAnalysis
  let hasStrongHook := detectHook speechAnalysis audioAnalysis segmentMetadata.position
  let speechScore :=
    if hasStrongHook then min 1 (speechAnalysis.speechScore + 0.25)
    else speechAnalysis.speechScore
  let compositeScore0 := audioScore * 0.40 + speechScore * 0.35 + visualScore * 0.25
  let compositeScore1 := applyPositionBonus compositeScore0 segmentMetadata.position
  let compositeScore := applyDurationBonus compositeScore1 segmentMetadata.duration
  let confidence := calculateConfidence audioAnalysis sceneAnalysis speechAnalysis
  let reason := generateReason audioScore visualScore speechScore compositeScore
  { compositeScore := max 0 (min 1 compositeScore)
    audioScore := audioScore
    visualScore := visualScore
    speechScore := speechScore
    confidence := confidence
    signals :=
      { audio := audioScore
        visual := visualScore
        speech := speechScore
        engagement := compositeScore }
    reason := if hasStrongHook then reason ++ " + strong opening hook detected!" else reason }

/-! ## Ranking with overlap removal and boundary adjustment (retention.ts) -/

/-- An element of the `analyses` argument of `rankSegments`; `end` is embedded
as `stop`. -/
structure AnalyzedSegment where
  analysis : RetentionAnalysis
  start : ℚ
  stop : ℚ
  audio : AudioAnalysis
  scenes : SceneAnalysis
  speech : SpeechAnalysis
deriving DecidableEq, Repr

/-- An element of the list returned by `rankSegments`. -/
structure RankedSegment where
  analysis : RetentionAnalysis
  start : ℚ
  stop : ℚ
  audio : AudioAnalysis
  scenes : SceneAnalysis
  speech : SpeechAnalysis
  rank : ℕ
  adjustedStart : Option ℚ
  adjustedEnd : Option ℚ
deriving DecidableEq, Repr

/-- The sort comparator of `rankSegments`: composite score descending, ties
broken by confidence descending. `scoreBefore a b` holds when the comparator
orders `a` no later than `b`. -/
def scoreBefore (a b : AnalyzedSegment) : Bool :=
  if a.analysis.compositeScore = b.analysis.compositeScore
  then decide (b.analysis.confidence ≤ a.analysis.confidence)
  else decide (b.analysis.compositeScore < a.analysis.compositeScore)

/-- Insert into a list sorted by `scoreBefore`. -/
def insertByScore (a : AnalyzedSegment) : List AnalyzedSegment → List AnalyzedSegment
  | [] => [a]
  | b :: l => if scoreBefore a b then a :: b :: l else b :: insertByScore a l

/-- The `analyses.sort(...)` call of `rankSegments`, embedded as an insertion
sort by the same comparator. -/
def sortByScore : List AnalyzedSegment → List AnalyzedSegment
  | [] => []
  | a :: l => insertByScore a (sortByScore l)

/-- The `hasOverlap` test of `rankSegments`, literally the three-case
disjunction of the source. -/
def overlapsSelected (candidate : AnalyzedSegment) (s : RankedSegment) : Bool :=
  decide ((candidate.start ≥ s.start ∧ candidate.start < s.stop) ∨
    (candidate.stop > s.start ∧ candidate.stop ≤ s.stop) ∨
    (candidate.start ≤ s.start ∧ candidate.stop ≥ s.stop))

/-- `findNearestSceneBoundary` of retention.ts: the scene-change timestamp
nearest to `targetTime`, if any lies within `maxDistance`; the fold keeps the
first of equally distant boundaries, like the source loop. -/
def findNearestSceneBoundary (sceneChanges : List SceneChange)
    (targetTime maxDistance : ℚ) : Option ℚ :=
  (sceneChanges.foldl
    (fun best change =>
      let distance := |change.timestamp - targetTime|
      match best with
      | none => if distance ≤ maxDistance then some (change.timestamp, distance) else none
      | some (nearest, minDistance) =>
        if distance < minDistance ∧ distance ≤ maxDistance
        then some (change.timestamp, distance)
        else some (nearest, minDistance))
    none).map Prod.fst

/-- The `lastTranscript` selection in `adjustSegmentBoundaries`: among the
transcripts with `endTime ≤ stop + 2`, the first one of maximal `endTime`
(the head of the stable descending sort used by the source). -/
def lastTranscriptNear (transcripts : List Transcript) (stop : ℚ) : Option Transcript :=
  (transcripts.filter (fun t => t.endTime ≤ stop + 2)).foldl
    (fun best t =>
      match best with
      | none => some t
      | some b => if t.endTime > b.endTime then some t else some b)
    none

/-- `Math.floor(x * 10) / 10` of the source. -/
def floorTenth (x : ℚ) : ℚ := (Int.floor (x * 10) : ℚ) / 10

/-- The result of `adjustSegmentBoundaries`; `end` is embedded as `stop`. -/
structure AdjustedBounds where
  start : ℚ
  stop : ℚ
deriving DecidableEq, Repr

/-- `adjustSegmentBoundaries` of retention.ts: snap both ends to a scene
boundary within 3 s, subtract the 0.5 s hook buffer clamped at 0, extend past a
trailing transcript, enforce a 15 s minimum, floor both ends to one decimal. -/
def adjustSegmentBoundaries (start stop : ℚ) (scenes : SceneAnalysis)
    (speech : SpeechAnalysis) : AdjustedBounds :=
  let adjustedStart0 :=
    match findNearestSceneBoundary scenes.sceneChanges start 3 with
    | some b => b
    | none => start
  let adjustedEnd0 :=
    match findNearestSceneBoundary scenes.sceneChanges stop 3 with
    | some b => b
    | none => stop
  let adjustedStart := max 0 (adjustedStart0 - 0.5)
  let adjustedEnd1 :=
    match lastTranscriptNear speech.transcripts stop with
    | some t => if |t.endTime - adjustedEnd0| < 2 then t.endTime + 0.3 else adjustedEnd0
    | none => adjustedEnd0
  let adjustedEnd := if adjustedEnd1 - adjustedStart < 15 then adjustedStart + 15 else adjustedEnd1
  { start := floorTenth adjustedStart, stop := floorTenth adjustedEnd }

/-- One selection step of `rankSegments`: walk the sorted candidates, stop at
`topN`, skip overlapping candidates, and push the rest with adjusted bounds. -/
def selectLoop (topN : ℕ) : List AnalyzedSegment → List RankedSegment → List RankedSegment
  | [], selected => selected
  | candidate :: rest, selected =>
    if selected.length ≥ topN then selected
    else if selected.any (fun s => overlapsSelected candidate s) then
      selectLoop topN rest selected
    else
      let adjusted := adjustSegmentBoundaries candidate.start candidate.stop
        candidate.scenes candidate.speech
      selectLoop topN rest (selected ++
        [{ analysis := candidate.analysis
           start := candidate.start
           stop := candidate.stop
           audio := candidate.audio
           scenes := candidate.scenes
           speech := candidate.speech
           rank := selected.length + 1
           adjustedStart := some adjusted.start
           adjustedEnd := some adjusted.stop }])

/-- `rankSegments` of retention.ts (overlap-removing revision). -/
def rankSegments (analyses : List AnalyzedSegment) (topN : ℕ) : List RankedSegment :=
  selectLoop topN (sortByScore analyses) []

/-! ## Candidate window generation (worker-analysis/src/index.ts) -/

/-- An emitted sliding window: the source pushes `Math.floor` of both ends, so
the fields are integers; `end` is embedded as `stop`. -/
structure Window where
  start : ℤ
  stop : ℤ
deriving DecidableEq, Repr

/-- `MIN_CLIP` of `generateSlidingWindows`. -/
def MIN_CLIP : ℚ := 15

/-- `MAX_CLIP` of `generateSlidingWindows`. -/
def MAX_CLIP : ℚ := 60

/-- `STEP` of `generateSlidingWindows`. -/
def STEP : ℚ := 5

/-- `PREFERRED` of `generateSlidingWindows`. -/
def PREFERRED : ℚ := 30

/-- `skipIntro` of `generateSlidingWindows`. -/
def skipIntro (totalDuration : ℚ) : ℚ := min 25 (totalDuration * 0.12)

/-- `skipOutro` of `generateSlidingWindows`. -/
def skipOutro (totalDuration : ℚ) : ℚ := min 20 (totalDuration * 0.08)

/-- The body of the `generateSlidingWindows` loop at step position `t`. -/
def slidingWindowAt (usableStart usableEnd t : ℚ) : Option Window :=
  let start := max usableStart (t - PREFERRED / 2)
  let stop0 := min usableEnd (start + PREFERRED)
  let stop1 := if stop0 - start < MIN_CLIP then min usableEnd (start + MIN_CLIP) else stop0
  let stop := if stop1 - start > MAX_CLIP then start + MAX_CLIP else stop1
  if stop - start ≥ MIN_CLIP then some { start := Int.floor start, stop := Int.floor stop }
  else none

/-- Number of iterations of `for (t = usableStart; t <= usableEnd - MIN_CLIP;
t += STEP)`. -/
def windowStepCount (usableStart usableEnd : ℚ) : ℕ :=
  if usableStart ≤ usableEnd - MIN_CLIP
  then (Int.floor ((usableEnd - MIN_CLIP - usableStart) / STEP)).toNat + 1
  else 0

/-- `generateSlidingWindows` of worker-analysis/src/index.ts. -/
def generateSlidingWindows (totalDuration : ℚ) : List Window :=
  let usableStart := skipIntro totalDuration
  let usableEnd := totalDuration - skipOutro totalDuration
  (List.range (windowStepCount usableStart usableEnd)).filterMap
    (fun (k : ℕ) => slidingWindowAt usableStart usableEnd (usableStart + STEP * (k : ℚ)))

/-! ## Caption pipeline (worker-extraction/src/captions.ts) -/

/-- A `WordTimestamp` of captions.ts; `end` is embedded as `stop`. -/
structure WordTimestamp where
  word : String
  start : ℚ
  stop : ℚ
deriving DecidableEq, Repr

/-- The caption style union of captions.ts. -/
inductive CaptionStyle where
  | normal
  | emphasis
  | hook
  | punchline
deriving DecidableEq, Repr

/-- A `CaptionSegment` of captions.ts; `end` is embedded as `stop`. -/
structure CaptionSegment where
  text : String
  start : ℚ
  stop : ℚ
  words : List WordTimestamp
  style : CaptionStyle
  emoji : Option String
deriving DecidableEq, Repr

/-- `TARGET_WORDS` of `groupIntoSegments`. -/
def TARGET_WORDS : ℕ := 3

/-- The `/[,;.!?]/` punctuation test of `groupIntoSegments`. -/
def hasPunctuation (w : String) : Bool :=
  w.toList.any (fun c => c = ',' ∨ c = ';' ∨ c = '.' ∨ c = '!' ∨ c = '?')

/-- Build the caption segment pushed by `groupIntoSegments` from a word group. -/
def mkCaptionSegment (group : List WordTimestamp) : CaptionSegment :=
  { text := (String.intercalate " " (group.map (fun w => w.word))).trim
    start := ((group.head?).map (fun w => w.start)).getD 0
    stop := ((group.getLast?).map (fun w => w.stop)).getD 0
    words := group
    style := CaptionStyle.normal
    emoji := none }

/-- The `words[i + 1].start - word.end > 0.3` test of `groupIntoSegments`,
on the remaining input (`false` at the last word, where `i = words.length - 1`
makes the conjunct short-circuit). -/
def gapToNext (word : WordTimestamp) : List WordTimestamp → Bool
  | next :: _ => decide (next.start - word.stop > 0.3)
  | [] => false

/-- The `shouldBreak` condition of `groupIntoSegments` for the group `grp`
ending in `word`, with `rest` still to come. -/
def shouldBreakFlag (grp : List WordTimestamp) (word : WordTimestamp)
    (rest : List WordTimestamp) : Bool :=
  decide (grp.length ≥ TARGET_WORDS) &&
    (hasPunctuation word.word || gapToNext word rest || decide (grp.length ≥ 5))

/-- The loop of `groupIntoSegments`: the first argument is the remaining input,
the second the `currentGroup` accumulator. A break needs at least
`TARGET_WORDS` words in the group and one of: punctuation in the current word,
a gap greater than 0.3 s to the next word, or a group of 5; the last word
always flushes. -/
def groupLoop : List WordTimestamp → List WordTimestamp → List CaptionSegment
  | [], _ => []
  | word :: rest, currentGroup =>
    let grp := currentGroup ++ [word]
    if shouldBreakFlag grp word rest || rest.isEmpty then
      mkCaptionSegment grp :: groupLoop rest []
    else groupLoop rest grp

/-- `groupIntoSegments` of captions.ts. -/
def groupIntoSegments (words : List WordTimestamp) : List CaptionSegment :=
  groupLoop words []

/-- Word tokens of a caption text, for the styling regexes: the segment words,
lowercased with punctuation stripped, so `\b`-delimited matching on the joined
text becomes token equality. -/
def styleTokens (seg : CaptionSegment) : List String :=
  seg.words.map (fun w =>
    String.mk ((w.word.toList.filter (fun c => ¬ (c = ',' ∨ c = ';' ∨ c = '.' ∨
      c = '!' ∨ c = '?'))).map Char.toLower))

/-- `applyViralStyling` of captions.ts, with the regex tests modelled on
tokens: first segment matching the question set gets `hook` 👀; excitement
words get `emphasis` 🔥; `!` or `but`/`however` get `punchline` 💥; numbers get
`emphasis` ✨. -/
def applyViralStyling (segments : List CaptionSegment) : List CaptionSegment :=
  segments.mapIdx (fun index seg =>
    let toks := styleTokens seg
    if index = 0 ∧ toks.any (fun w =>
        ["what", "how", "why", "watch", "wait", "imagine"].contains w) then
      { seg with style := CaptionStyle.hook, emoji := some "👀" }
    else if toks.any (fun w =>
        ["amazing", "crazy", "insane", "unbelievable", "shocking", "incredible"].contains w) then
      { seg with style := CaptionStyle.emphasis, emoji := some "🔥" }
    else if seg.text.toList.contains '!' ∨ toks.contains "but" ∨ toks.contains "however" then
      { seg with style := CaptionStyle.punchline, emoji := some "💥" }
    else if toks.any (fun w => w.toList.any Char.isDigit) then
      { seg with style := CaptionStyle.emphasis, emoji := some "✨" }
    else seg)

/-- Outcome of the transcription HTTP call in `transcribeWithWhisper` of
captions.ts: an HTTP/SDK error, or a response carrying optional word-level
timestamps, the full text (as tokens) and an optional duration. -/
inductive TranscriptionOutcome where
  | httpError
  | response (words : Option (List WordTimestamp)) (text : List String) (duration : Option ℚ)
deriving DecidableEq, Repr

/-- The even-split fallback of `transcribeWithWhisper`, used when the response
has no word timestamps. -/
def evenSplitWords (text : List String) (duration : Option ℚ) : List WordTimestamp :=
  let avgDuration := (duration.getD 30) / (text.length : ℚ)
  text.mapIdx (fun i word =>
    { word := word, start := (i : ℚ) * avgDuration, stop := ((i : ℚ) + 1) * avgDuration })

/-- `transcribeWithWhisper` of captions.ts: word timestamps when present and
nonempty, else the even text split; any error is caught and yields `[]`. -/
def transcribeWithWhisper : TranscriptionOutcome → List WordTimestamp
  | TranscriptionOutcome.httpError => []
  | TranscriptionOutcome.response ws text duration =>
    match ws with
    | some l => if l.length > 0 then l.map (fun w => { w with word := w.word.trim })
                else evenSplitWords text duration
    | none => evenSplitWords text duration

/-- `analyzeTranscript` of captions.ts trims each word before grouping. -/
def analyzeTranscriptWords (words : List WordTimestamp) : List WordTimestamp :=
  words.map (fun w => { w with word := w.word.trim })

/-- `generateViralCaptions` of captions.ts, as a function of the transcription
outcome: empty transcription gives no captions, otherwise the transcribed words
are grouped and styled. -/
def generateViralCaptions (outcome : TranscriptionOutcome) : List CaptionSegment :=
  let wordTimestamps := transcribeWithWhisper outcome
  if wordTimestamps.length = 0 then []
  else applyViralStyling (groupIntoSegments (analyzeTranscriptWords wordTimestamps))

/-! ## Database rows and constraints (packages/database migration) -/

/-- The Job columns the workers write; `completedAt` is an abstract clock
value. -/
structure JobRow where
  status : String
  progress : ℤ
  currentStep : String
  completedAt : Option ℕ
deriving DecidableEq, Repr

/-- The Segment columns written by `prisma.segment.create` in the analysis
worker. The `ytRetention` column is omitted: the source computes it with
`Math.random()`. -/
structure SegmentRow where
  videoId : String
  startTime : ℚ
  endTime : ℚ
  duration : ℚ
  compositeScore : ℚ
  signals : Signals
  reason : String
  status : String
deriving DecidableEq, Repr

/-- The Video columns written by `prisma.video.create` in the download
worker. -/
structure VideoRow where
  youtubeId : String
  youtubeUrl : String
  userId : String
  title : String
  duration : ℚ
  s3Key : String
  status : String
deriving DecidableEq, Repr

/-- The Clip columns written by `prisma.clip.create` in the extraction worker,
plus the nullable `youtubeId` column that carries the table's only unique
constraint besides the primary key. -/
structure ClipRow where
  segmentId : String
  videoId : String
  s3Key : String
  thumbnailKey : Option String
  title : String
  description : String
  status : String
  youtubeId : Option String
deriving DecidableEq, Repr

/-- The tables relevant to the idempotency claims. -/
structure Db where
  videos : List VideoRow
  clips : List ClipRow
deriving DecidableEq, Repr

/-- `prisma.video.create` against the migration schema: the unique index
`Video_youtubeId_key` rejects a second row with the same `youtubeId`. -/
def videoCreate (db : Db) (row : VideoRow) : Except String Db :=
  if db.videos.any (fun v => v.youtubeId = row.youtubeId) then
    Except.error "Unique constraint failed on the fields: (youtubeId)"
  else Except.ok { db with videos := db.videos ++ [row] }

/-- `prisma.clip.create` against the migration schema: the only unique index on
Clip is `Clip_youtubeId_key`, and Postgres treats NULLs as distinct, so rows
with `youtubeId = none` always insert; `Clip_segmentId_idx` is a plain index,
not a unique one. -/
def clipCreate (db : Db) (row : ClipRow) : Except String Db :=
  match row.youtubeId with
  | some y =>
    if db.clips.any (fun c => c.youtubeId = some y) then
      Except.error "Unique constraint failed on the fields: (youtubeId)"
    else Except.ok { db with clips := db.clips ++ [row] }
  | none => Except.ok { db with clips := db.clips ++ [row] }

/-! ## Job updates (analysis and extraction workers) -/

/-- `updateJobStatus` of both the analysis and download workers: writes
`status`, `progress` and `currentStep` (and `updatedAt`), never
`completedAt`. -/
def updateJobStatus (job : JobRow) (status : String) (progress : ℤ)
    (step : String) : JobRow :=
  { job with status := status, progress := progress, currentStep := step }

/-- `updateJobProgress` of the extraction worker: recomputes `progress` from
the extracted-segment ratio and sets `currentStep`; it writes neither `status`
nor `completedAt`. `Math.round` is `round` (floor of x + 1/2). -/
def updateJobProgress (job : JobRow) (totalSegments extractedSegments : ℕ) : JobRow :=
  let progress : ℤ :=
    if totalSegments > 0 then round ((extractedSegments : ℚ) / (totalSegments : ℚ) * 100)
    else 0
  { job with
    progress := progress
    currentStep := "Extracted " ++ toString extractedSegments ++ "/" ++
      toString totalSegments ++ " clips" }

/-! ## Analysis worker pipeline (worker-analysis/src/index.ts) -/

/-- `fallbackAudioScore` of the analysis worker. -/
def fallbackAudioScore : AudioAnalysis :=
  { averageVolume := -28
    peakVolume := -12
    volumeVariance := 18
    silencePeriods := []
    loudMoments := [{ timestamp := 5, volume := -15 }]
    energyScore := 0.52 }

/-- `fallbackSceneScore` of the analysis worker. -/
def fallbackSceneScore : SceneAnalysis :=
  { scenes := []
    sceneChanges := []
    averageSceneLength := 12
    sceneChangeRate := 0 }

/-- `fallbackSpeechScore` of the analysis worker. -/
def fallbackSpeechScore : SpeechAnalysis :=
  { transcripts := []
    totalWords := 0
    speechDensity := 0
    keyPhrases := []
    viralTriggers := []
    speechScore := 0.5 }

/-- The per-window analyzer results; the analysis worker obtains them from
external tools (or the fallback objects), so the pipeline is parametrized by
this function. -/
def Analyzers : Type := Window → AudioAnalysis × SceneAnalysis × SpeechAnalysis

/-- The analyzer triple the worker uses when every external tool fails. -/
def fallbackAnalyzers : Analyzers :=
  fun _ => (fallbackAudioScore, fallbackSceneScore, fallbackSpeechScore)

/-- Steps 3 and 4 of the analysis worker: generate sliding windows and score
each candidate with `calculateRetentionScore`. -/
def analyzeCandidates (duration : ℚ) (analyze : Analyzers) : List AnalyzedSegment :=
  (generateSlidingWindows duration).map (fun seg =>
    let res := analyze seg
    let retention := calculateRetentionScore res.1 res.2.1 res.2.2
      { position := (seg.start : ℚ) / duration
        duration := (seg.stop : ℚ) - (seg.start : ℚ)
        totalDuration := duration }
    { analysis := retention
      start := (seg.start : ℚ)
      stop := (seg.stop : ℚ)
      audio := res.1
      scenes := res.2.1
      speech := res.2.2 })

/-- The row built by `prisma.segment.create` in step 6 of the analysis worker:
it persists `r.start` and `r.end`, with `r.analysis.reason || default` for the
reason. -/
def segmentRowOf (videoId : String) (r : RankedSegment) : SegmentRow :=
  { videoId := videoId
    startTime := r.start
    endTime := r.stop
    duration := r.stop - r.start
    compositeScore := r.analysis.compositeScore
    signals := r.analysis.signals
    reason := if r.analysis.reason = "" then "High composite engagement score" else r.analysis.reason
    status := "detected" }

/-- An extraction task queued in step 7 of the analysis worker; `end` is
embedded as `stop`. -/
structure ExtractionTask where
  videoId : String
  segmentIndex : ℕ
  start : ℚ
  stop : ℚ
deriving DecidableEq, Repr

/-- The observable outcome of one successful analysis-worker run. -/
structure AnalysisOutcome where
  segments : List SegmentRow
  tasks : List ExtractionTask
  job : JobRow
deriving DecidableEq, Repr

/-- The success path of the analysis worker handler: score the candidates,
rank the top 8, persist one Segment row per ranked candidate, queue one
extraction task per created row, and finish with
`updateJobStatus(jobId, completed, 100, ...)`. No Clip row is written. -/
def analysisWorkerRun (job : JobRow) (videoId : String) (duration : ℚ)
    (analyze : Analyzers) : AnalysisOutcome :=
  let ranked := rankSegments (analyzeCandidates duration analyze) 8
  let createdSegments := ranked.map (segmentRowOf videoId)
  let tasks := createdSegments.mapIdx (fun i seg =>
    { videoId := videoId
      segmentIndex := i
      start := seg.startTime
      stop := seg.endTime })
  { segments := createdSegments
    tasks := tasks
    job := updateJobStatus job "completed" 100
      ("Analysis complete • " ++ toString createdSegments.length ++ " clips queued") }

/-! ## Extraction worker (worker-extraction/src/index.ts) -/

/-- The external conditions one extraction-worker run meets: whether captions
are enabled and an API key is present, the transcription outcome, and whether
each caption burn attempt fails. Download, cut, thumbnail and upload are taken
as succeeding; the claims about this worker condition only on the caption
path. -/
structure ExtractionEnv where
  captionsEnabled : Bool
  apiKeyPresent : Bool
  transcription : TranscriptionOutcome
  assBurnFails : Bool
  srtBurnFails : Bool
deriving DecidableEq, Repr

/-- The fields of the `prisma.segment.update` call in step 8. -/
structure SegmentUpdate where
  status : String
  hasCaptions : Bool
  captionStyle : Option String
  captionData : Option (List CaptionSegment)
deriving DecidableEq, Repr

/-- The observable outcome of one extraction-worker run. -/
structure ExtractionResult where
  db : Db
  uploads : List String
  segmentUpdate : Option SegmentUpdate
  segmentSetFailed : Bool
  taskFailed : Bool
deriving DecidableEq, Repr

/-- The caption phase of the extraction handler (step 4): `captionData` stays
null unless captions are enabled, a key is present, caption generation returns
a nonempty list, and one of the two burn attempts succeeds; a failing SRT
fallback is caught by the outer caption try/catch and also leaves the plain
clip. -/
def captionPhase (env : ExtractionEnv) : Option (List CaptionSegment) :=
  if env.captionsEnabled && env.apiKeyPresent then
    let captions := generateViralCaptions env.transcription
    if captions.length > 0 then
      if !env.assBurnFails then some captions
      else if !env.srtBurnFails then some captions
      else none
    else none
  else none

/-- The extraction worker handler on the success path of cut, thumbnail and
upload: burn-in captions when possible, upload under the deterministic keys,
insert the Clip row (with a null `youtubeId`), and update the Segment. A
failed Clip insert takes the catch path: the Segment is set to `failed` and
the task is rethrown (Nacked). -/
def extractionWorkerRun (db : Db) (env : ExtractionEnv) (segmentId videoId videoTitle : String)
    (segmentReason : Option String) : ExtractionResult :=
  let captionData := captionPhase env
  let clipKey := "clips/" ++ videoId ++ "/" ++ segmentId ++ ".mp4"
  let thumbnailKey := "thumbnails/" ++ videoId ++ "/" ++ segmentId ++ ".jpg"
  let row : ClipRow :=
    { segmentId := segmentId
      videoId := videoId
      s3Key := clipKey
      thumbnailKey := some thumbnailKey
      title := videoTitle ++ " - Clip"
      description := segmentReason.getD "Auto-generated clip"
      status := "ready_for_review"
      youtubeId := none }
  match clipCreate db row with
  | Except.error _ =>
    { db := db
      uploads := [clipKey, thumbnailKey]
      segmentUpdate := none
      segmentSetFailed := true
      taskFailed := true }
  | Except.ok db2 =>
    { db := db2
      uploads := [clipKey, thumbnailKey]
      segmentUpdate := some
        { status := "extracted"
          hasCaptions := captionData.isSome
          captionStyle := if captionData.isSome then some "viral" else none
          captionData := captionData }
      segmentSetFailed := false
      taskFailed := false }

/-! ## Download worker (worker-download/src/index.ts) -/

/-- The delimiter class `[^&\n?#]` of the `extractVideoId` regex. -/
def urlStopChars : List Char := ['&', '\n', '?', '#']

/-- First alternative of the `extractVideoId` regex. -/
def urlPatternA : List Char := "youtube.com/watch?v=".toList

/-- Second alternative of the `extractVideoId` regex. -/
def urlPatternB : List Char := "youtu.be/".toList

/-- The capture group `([^&\n?#]+)`: at least one character up to a
delimiter. -/
def captureExternalId (rest : List Char) : Option (List Char) :=
  let captured := rest.takeWhile (fun c => !urlStopChars.contains c)
  if captured.isEmpty then none else some captured

/-- Leftmost-match scan of the `extractVideoId` regex over the URL
characters. -/
def extractVideoIdAux : List Char → Option (List Char)
  | [] => none
  | c :: rest =>
    if urlPatternA.isPrefixOf (c :: rest) then
      match captureExternalId ((c :: rest).drop urlPatternA.length) with
      | some found => some found
      | none => extractVideoIdAux rest
    else if urlPatternB.isPrefixOf (c :: rest) then
      match captureExternalId ((c :: rest).drop urlPatternB.length) with
      | some found => some found
      | none => extractVideoIdAux rest
    else extractVideoIdAux rest

/-- `extractVideoId` of worker-download/src/index.ts:
`/(?:youtube\.com\/watch\?v=|youtu\.be\/)([^&\n?#]+)/`. -/
def extractVideoId (url : String) : Option String :=
  (extractVideoIdAux url.toList).map (fun cs => String.mk cs)

/-- The metadata the download worker reads from the info JSON. -/
structure DownloadMetadata where
  title : Option String
  description : Option String
  duration : Option ℚ
  thumbnail : Option String
deriving DecidableEq, Repr

/-- The observable outcome of one download-worker run. -/
structure DownloadOutcome where
  db : Db
  job : JobRow
  taskFailed : Bool
deriving DecidableEq, Repr

/-- The download worker handler with the external download succeeding: parse
the video id, upload under `raw-videos/<id>/video.mp4`, `prisma.video.create`
the row, and finish with `updateJobStatus(jobId, completed, 100, ...)`; any
error (invalid URL, or the unique-constraint violation of a duplicate create)
takes the catch path, which sets the job `failed` and rethrows. -/
def downloadWorkerRun (db : Db) (job : JobRow) (youtubeUrl userId : String)
    (metadata : DownloadMetadata) : DownloadOutcome :=
  match extractVideoId youtubeUrl with
  | none =>
    { db := db
      job := updateJobStatus job "failed" 0 "Error: Invalid YouTube URL"
      taskFailed := true }
  | some videoId =>
    let s3Key := "raw-videos/" ++ videoId ++ "/video.mp4"
    let row : VideoRow :=
      { youtubeId := videoId
        youtubeUrl := youtubeUrl
        userId := userId
        title := metadata.title.getD "Untitled Video"
        duration := metadata.duration.getD 0
        s3Key := s3Key
        status := "downloaded" }
    match videoCreate db row with
    | Except.error e =>
      { db := db
        job := updateJobStatus job "failed" 0 ("Error: " ++ e)
        taskFailed := true }
    | Except.ok db2 =>
      { db := db2
        job := updateJobStatus job "completed" 100 "Download complete!"
        taskFailed := false }

/-! ## Lemmas about caption grouping -/

theorem groupLoop_ne_nil (ws : List WordTimestamp) (acc : List WordTimestamp)
    (h : ws ≠ []) : groupLoop ws acc ≠ [] := by
  induction ws generalizing acc with
  | nil => exact absurd rfl h
  | cons w rest ih =>
    rw [groupLoop]
    by_cases hb : (shouldBreakFlag (acc ++ [w]) w rest || rest.isEmpty) = true
    · simp only [hb, if_pos]
      exact List.cons_ne_nil _ _
    · simp only [hb, if_neg, Bool.false_eq_true, not_false_iff]
      have hrest : rest ≠ [] := by
        intro hr
        subst hr
        simp at hb
      exact ih _ hrest

theorem groupLoop_flatten (ws : List WordTimestamp) (acc : List WordTimestamp)
    (h : ws ≠ []) :
    ((groupLoop ws acc).map (fun s => s.words)).flatten = acc ++ ws := by
  induction ws generalizing acc with
  | nil => exact absurd rfl h
  | cons w rest ih =>
    rw [groupLoop]
    rcases Decidable.em (rest = []) with hr | hr
    · subst hr
      simp [groupLoop, mkCaptionSegment]
    · by_cases hb : (shouldBreakFlag (acc ++ [w]) w rest || rest.isEmpty) = true
      · simp only [hb, if_pos, List.map_cons, List.flatten_cons]
        rw [ih [] hr]
        simp [mkCaptionSegment]
      · simp only [hb, if_neg, Bool.false_eq_true, not_false_iff]
        rw [ih _ hr]
        simp

theorem dropLast_cons_ne {α : Type} (a : α) (l : List α) (h : l ≠ []) :
    (a :: l).dropLast = a :: l.dropLast := by
  cases l with
  | nil => exact absurd rfl h
  | cons b m => rfl

theorem groupLoop_sizes (ws : List WordTimestamp) (acc : List WordTimestamp)
    (hacc : acc.length ≤ 4) :
    ∀ seg ∈ groupLoop ws acc, 1 ≤ seg.words.length ∧ seg.words.length ≤ 5 := by
  induction ws generalizing acc with
  | nil => intro seg hseg; simp [groupLoop] at hseg
  | cons w rest ih =>
    intro seg hseg
    rw [groupLoop] at hseg
    by_cases hb : (shouldBreakFlag (acc ++ [w]) w rest || rest.isEmpty) = true
    · simp only [hb, if_pos, List.mem_cons] at hseg
      rcases hseg with hseg | hseg
      · subst hseg
        simp only [mkCaptionSegment, List.length_append, List.length_singleton]
        omega
      · exact ih [] (by simp) seg hseg
    · simp only [hb, if_neg, Bool.false_eq_true, not_false_iff] at hseg
      have hlen : (acc ++ [w]).length ≤ 4 := by
        by_contra hlt
        have h5 : (acc ++ [w]).length ≥ 5 := by omega
        have h3 : (acc ++ [w]).length ≥ TARGET_WORDS := by
          simp only [TARGET_WORDS]; omega
        have : shouldBreakFlag (acc ++ [w]) w rest = true := by
          simp only [shouldBreakFlag, Bool.and_eq_true, Bool.or_eq_true, decide_eq_true_iff]
          exact ⟨h3, Or.inr h5⟩
        simp [this] at hb
      exact ih _ hlen seg hseg

theorem groupLoop_dropLast_sizes (ws : List WordTimestamp) (acc : List WordTimestamp) :
    ∀ seg ∈ (groupLoop ws acc).dropLast, TARGET_WORDS ≤ seg.words.length := by
  induction ws generalizing acc with
  | nil => intro seg hseg; simp [groupLoop] at hseg
  | cons w rest ih =>
    intro seg hseg
    rw [groupLoop] at hseg
    by_cases hb : (shouldBreakFlag (acc ++ [w]) w rest || rest.isEmpty) = true
    · simp only [hb, if_pos] at hseg
      rcases Decidable.em (rest = []) with hr | hr
      · subst hr
        simp [groupLoop] at hseg
      · rw [dropLast_cons_ne _ _ (groupLoop_ne_nil rest [] hr), List.mem_cons] at hseg
        rcases hseg with hseg | hseg
        · subst hseg
          have hbreak : shouldBreakFlag (acc ++ [w]) w rest = true := by
            rcases Bool.or_eq_true_iff.mp hb with hb' | hb'
            · exact hb'
            · exact absurd (List.isEmpty_iff.mp hb') hr
          have h3 : TARGET_WORDS ≤ (acc ++ [w]).length := by
            simp only [shouldBreakFlag, Bool.and_eq_true, Bool.or_eq_true,
              decide_eq_true_iff] at hbreak
            exact hbreak.1
          simpa only [mkCaptionSegment] using h3
        · exact ih [] seg hseg
    · simp only [hb, if_neg, Bool.false_eq_true, not_false_iff] at hseg
      exact ih _ seg hseg

/-! ## Claim C10 -/

/-- C10: for every input word list, concatenating the `words` arrays of the
CaptionSegments produced by `groupIntoSegments`, in order, yields exactly the
input word list — grouping drops, duplicates and reorders nothing. -/
theorem c10_grouping_preserves_words (words : List WordTimestamp) :
    ((groupIntoSegments words).map (fun s => s.words)).flatten = words := by
  cases words with
  | nil => rfl
  | cons w rest =>
    simpa using groupLoop_flatten (w :: rest) [] (List.cons_ne_nil w rest)

/-! ## Claim C9 -/

/-- C9 counterexample: on the nonempty one-word input, `groupIntoSegments`
emits a segment with a single word, so it is not true that every produced
CaptionSegment contains between 2 and 5 words. -/
theorem c9_counterexample :
    ¬ (∀ seg ∈ groupIntoSegments [{ word := "hi", start := 0, stop := 1 }],
        2 ≤ seg.words.length ∧ seg.words.length ≤ 5) := by
  intro hcl
  have h := hcl (mkCaptionSegment [{ word := "hi", start := 0, stop := 1 }])
    (by simp [groupIntoSegments, groupLoop])
  simp [mkCaptionSegment] at h

/-- C9 (amended): every CaptionSegment produced by grouping contains between 1
and 5 words, and every segment except possibly the last contains at least
`TARGET_WORDS = 3` words — a group boundary is taken only once the group holds
at least 3 words and the current word carries punctuation, the gap to the next
word exceeds 0.3 s, or the group has reached 5 words; the final group is
flushed at the end of the input whatever its size. -/
theorem c9_caption_group_sizes (words : List WordTimestamp) (seg : CaptionSegment)
    (hmem : seg ∈ groupIntoSegments words) :
    1 ≤ seg.words.length ∧ seg.words.length ≤ 5 ∧
      (seg ∈ (groupIntoSegments words).dropLast → TARGET_WORDS ≤ seg.words.length) := by
  have h1 := groupLoop_sizes words [] (by simp) seg hmem
  exact ⟨h1.1, h1.2, fun hd => groupLoop_dropLast_sizes words [] seg hd⟩

/-- Concrete four-word input for the C9 witness: a punctuation break after the
third word, then a trailing one-word group. -/
def c9words : List WordTimestamp :=
  [{ word := "we", start := 0, stop := 1 },
   { word := "love", start := 1, stop := 2 },
   { word := "clips.", start := 2, stop := 3 },
   { word := "yes", start := 3, stop := 4 }]

/-- C9 witness: the amended size bounds instantiated on `c9words`, with the
membership hypotheses discharged on the first emitted segment. -/
theorem c9_caption_group_sizes_witness :
    TARGET_WORDS ≤ (mkCaptionSegment (c9words.take 3)).words.length :=
  (c9_caption_group_sizes c9words (mkCaptionSegment (c9words.take 3))
    (by norm_num [c9words, groupIntoSegments, groupLoop, shouldBreakFlag, gapToNext,
      hasPunctuation, TARGET_WORDS])).2.2
    (by norm_num [c9words, groupIntoSegments, groupLoop, shouldBreakFlag, gapToNext,
      hasPunctuation, TARGET_WORDS])

/-! ## Lemmas about ranking and selection -/

/-- The ordering realized by the `rankSegments` comparator: composite score
descending, ties broken by confidence descending. -/
def ScoreOrder (a b : AnalyzedSegment) : Prop :=
  b.analysis.compositeScore < a.analysis.compositeScore ∨
    (a.analysis.compositeScore = b.analysis.compositeScore ∧
      b.analysis.confidence ≤ a.analysis.confidence)

theorem scoreBefore_iff (a b : AnalyzedSegment) :
    scoreBefore a b = true ↔ ScoreOrder a b := by
  unfold scoreBefore ScoreOrder
  by_cases h : a.analysis.compositeScore = b.analysis.compositeScore
  · rw [if_pos h]
    simp only [decide_eq_true_iff]
    constructor
    · intro hc; exact Or.inr ⟨h, hc⟩
    · intro hc
      rcases hc with hc | hc
      · exact absurd h (ne_of_gt hc)
      · exact hc.2
  · rw [if_neg h]
    simp only [decide_eq_true_iff]
    constructor
    · intro hc; exact Or.inl hc
    · intro hc
      rcases hc with hc | hc
      · exact hc
      · exact absurd hc.1 h

theorem ScoreOrder_total (a b : AnalyzedSegment) (h : ¬ ScoreOrder a b) : ScoreOrder b a := by
  unfold ScoreOrder at h ⊢
  push_neg at h
  by_cases he : a.analysis.compositeScore = b.analysis.compositeScore
  · exact Or.inr ⟨he.symm, le_of_lt (h.2 he)⟩
  · exact Or.inl (lt_of_le_of_ne h.1 he)

theorem ScoreOrder_trans (a b c : AnalyzedSegment) (hab : ScoreOrder a b)
    (hbc : ScoreOrder b c) : ScoreOrder a c := by
  unfold ScoreOrder at hab hbc ⊢
  rcases hab with hab | hab <;> rcases hbc with hbc | hbc
  · exact Or.inl (lt_trans hbc hab)
  · exact Or.inl (by rw [← hbc.1]; exact hab)
  · exact Or.inl (by rw [hab.1]; exact hbc)
  · exact Or.inr ⟨hab.1.trans hbc.1, hbc.2.trans hab.2⟩

theorem insertByScore_perm (a : AnalyzedSegment) (l : List AnalyzedSegment) :
    (insertByScore a l).Perm (a :: l) := by
  induction l with
  | nil => rfl
  | cons b l ih =>
    rw [insertByScore]
    by_cases h : scoreBefore a b = true
    · simp [h]
    · simp only [h, Bool.false_eq_true, if_neg, not_false_iff]
      exact ((ih.cons b).trans (List.Perm.swap a b l))

theorem sortByScore_perm (l : List AnalyzedSegment) : (sortByScore l).Perm l := by
  induction l with
  | nil => rfl
  | cons a l ih => exact (insertByScore_perm a (sortByScore l)).trans (ih.cons a)

theorem insertByScore_pairwise (a : AnalyzedSegment) (l : List AnalyzedSegment)
    (h : List.Pairwise ScoreOrder l) :
    List.Pairwise ScoreOrder (insertByScore a l) := by
  induction l with
  | nil => simp [insertByScore]
  | cons b l ih =>
    rw [insertByScore]
    by_cases hab : scoreBefore a b = true
    · simp only [hab, if_pos]
      refine List.Pairwise.cons ?_ h
      intro x hx
      have hob : ScoreOrder a b := (scoreBefore_iff a b).mp hab
      rcases List.mem_cons.mp hx with hx | hx
      · subst hx; exact hob
      · exact ScoreOrder_trans a b x hob ((List.pairwise_cons.mp h).1 x hx)
    · simp only [hab, Bool.false_eq_true, if_neg, not_false_iff]
      have hba : ScoreOrder b a :=
        ScoreOrder_total a b (fun hc => hab ((scoreBefore_iff a b).mpr hc))
      refine List.Pairwise.cons ?_ (ih (List.pairwise_cons.mp h).2)
      intro x hx
      have hx' := (insertByScore_perm a l).mem_iff.mp hx
      rcases List.mem_cons.mp hx' with hx' | hx'
      · subst hx'; exact hba
      · exact (List.pairwise_cons.mp h).1 x hx'

theorem sortByScore_pairwise (l : List AnalyzedSegment) :
    List.Pairwise ScoreOrder (sortByScore l) := by
  induction l with
  | nil => simp [sortByScore]
  | cons a l ih => exact insertByScore_pairwise a (sortByScore l) ih

/-- Half-open disjointness of two selected windows: the intervals
`[start, end)` do not intersect. -/
def HalfOpenDisjoint (a b : RankedSegment) : Prop :=
  a.stop ≤ b.start ∨ b.stop ≤ a.start

theorem not_overlap_disjoint (c : AnalyzedSegment) (s : RankedSegment)
    (h : overlapsSelected c s = false) : s.stop ≤ c.start ∨ c.stop ≤ s.start := by
  unfold overlapsSelected at h
  rw [decide_eq_false_iff_not] at h
  by_contra hcon
  push_neg at hcon
  obtain ⟨hA, hB⟩ := hcon
  apply h
  rcases le_or_lt s.start c.start with hc1 | hc1
  · exact Or.inl ⟨hc1, hA⟩
  · rcases le_or_lt s.stop c.stop with hc2 | hc2
    · exact Or.inr (Or.inr ⟨le_of_lt hc1, hc2⟩)
    · exact Or.inr (Or.inl ⟨hB, le_of_lt hc2⟩)

theorem selectLoop_length (topN : ℕ) (rest : List AnalyzedSegment)
    (selected : List RankedSegment) (h : selected.length ≤ topN) :
    (selectLoop topN rest selected).length ≤ topN := by
  induction rest generalizing selected with
  | nil => exact h
  | cons c rest ih =>
    rw [selectLoop]
    by_cases hfull : selected.length ≥ topN
    · simp only [hfull, if_pos]; exact h
    · simp only [hfull, if_neg, not_false_iff]
      by_cases hov : selected.any (fun s => overlapsSelected c s) = true
      · simp only [hov, if_pos]; exact ih selected h
      · simp only [hov, if_neg, Bool.false_eq_true, not_false_iff]
        refine ih _ ?_
        simp only [List.length_append, List.length_singleton]
        omega

theorem selectLoop_pairwise (topN : ℕ) (rest : List AnalyzedSegment)
    (selected : List RankedSegment) (h : List.Pairwise HalfOpenDisjoint selected) :
    List.Pairwise HalfOpenDisjoint (selectLoop topN rest selected) := by
  induction rest generalizing selected with
  | nil => exact h
  | cons c rest ih =>
    rw [selectLoop]
    by_cases hfull : selected.length ≥ topN
    · simp only [hfull, if_pos]; exact h
    · simp only [hfull, if_neg, not_false_iff]
      by_cases hov : selected.any (fun s => overlapsSelected c s) = true
      · simp only [hov, if_pos]; exact ih selected h
      · simp only [hov, if_neg, Bool.false_eq_true, not_false_iff]
        refine ih _ ?_
        rw [List.pairwise_append]
        refine ⟨h, List.pairwise_singleton _ _, ?_⟩
        intro s hs r hr
        simp only [List.mem_singleton] at hr
        subst hr
        have hno : overlapsSelected c s = false := by
          cases hcase : overlapsSelected c s
          · rfl
          · exact absurd (List.any_eq_true.mpr ⟨s, hs, hcase⟩) hov
        exact not_overlap_disjoint c s hno

/-! ## Claim C3 -/

/-- C3: `rankSegments` walks the candidates in the comparator order (composite
score descending, ties broken by confidence descending: the considered list is
a permutation of the input that is pairwise `ScoreOrder`-sorted), selects at
most `topN` of them, and the selected windows are pairwise non-overlapping as
half-open intervals `[start, end)`. -/
theorem c3_ranking_selection (analyses : List AnalyzedSegment) (topN : ℕ) :
    (rankSegments analyses topN).length ≤ topN ∧
    List.Pairwise HalfOpenDisjoint (rankSegments analyses topN) ∧
    (sortByScore analyses).Perm analyses ∧
    List.Pairwise ScoreOrder (sortByScore analyses) ∧
    rankSegments analyses topN = selectLoop topN (sortByScore analyses) [] := by
  refine ⟨?_, ?_, sortByScore_perm analyses, sortByScore_pairwise analyses, rfl⟩
  · exact selectLoop_length topN (sortByScore analyses) [] (by simp)
  · exact selectLoop_pairwise topN (sortByScore analyses) [] (by simp)

/-! ## Claim C4 -/

theorem scoreAudioEngagement_nonneg (a : AudioAnalysis) : 0 ≤ scoreAudioEngagement a := by
  unfold scoreAudioEngagement
  exact le_max_left 0 _

theorem scoreAudioEngagement_le_one (a : AudioAnalysis) : scoreAudioEngagement a ≤ 1 := by
  unfold scoreAudioEngagement
  exact max_le zero_le_one (min_le_left 1 _)

theorem scoreVisualEngagement_nonneg (s : SceneAnalysis) : 0 ≤ scoreVisualEngagement s := by
  unfold scoreVisualEngagement
  exact le_max_left 0 _

theorem scoreVisualEngagement_le_one (s : SceneAnalysis) : scoreVisualEngagement s ≤ 1 := by
  unfold scoreVisualEngagement
  exact max_le zero_le_one (min_le_left 1 _)

/-- C4 (amended): the returned composite score is clamped into `[0,1]`, and the
audio, visual and speech components of the signals map lie in `[0,1]` (speech
under the in-range speech input produced by the speech analyzer); but the
`engagement` component equals the composite score before the final clamp — the
position and duration bonuses applied to the weighted sum — and is not clamped
into `[0,1]`. -/
theorem c4_signal_bounds (a : AudioAnalysis) (s : SceneAnalysis) (sp : SpeechAnalysis)
    (m : SegmentMetadata) (h0 : 0 ≤ sp.speechScore) (h1 : sp.speechScore ≤ 1) :
    0 ≤ (calculateRetentionScore a s sp m).compositeScore ∧
    (calculateRetentionScore a s sp m).compositeScore ≤ 1 ∧
    0 ≤ (calculateRetentionScore a s sp m).signals.audio ∧
    (calculateRetentionScore a s sp m).signals.audio ≤ 1 ∧
    0 ≤ (calculateRetentionScore a s sp m).signals.visual ∧
    (calculateRetentionScore a s sp m).signals.visual ≤ 1 ∧
    0 ≤ (calculateRetentionScore a s sp m).signals.speech ∧
    (calculateRetentionScore a s sp m).signals.speech ≤ 1 ∧
    (calculateRetentionScore a s sp m).signals.engagement =
      applyDurationBonus
        (applyPositionBonus
          (scoreAudioEngagement a * 0.40 +
            (if detectHook sp a m.position then min 1 (sp.speechScore + 0.25)
              else sp.speechScore) * 0.35 +
            scoreVisualEngagement s * 0.25)
          m.position)
        m.duration := by
  refine ⟨?_, ?_, scoreAudioEngagement_nonneg a, scoreAudioEngagement_le_one a,
    scoreVisualEngagement_nonneg s, scoreVisualEngagement_le_one s, ?_, ?_, rfl⟩
  · exact le_max_left 0 _
  · exact max_le zero_le_one (min_le_left 1 _)
  · show 0 ≤ if detectHook sp a m.position then min 1 (sp.speechScore + 0.25) else sp.speechScore
    by_cases hd : detectHook sp a m.position = true
    · rw [if_pos hd]
      exact le_min zero_le_one (by linarith)
    · rw [if_neg hd]
      exact h0
  · show (if detectHook sp a m.position then min 1 (sp.speechScore + 0.25)
      else sp.speechScore) ≤ 1
    by_cases hd : detectHook sp a m.position = true
    · rw [if_pos hd]
      exact min_le_left 1 _
    · rw [if_neg hd]
      exact h1

/-- Audio input for the C4 counterexample, with fields in the ranges the audio
analyzer produces: clamped energy score 1, dynamic range 20 dB, five loud
moments, no silence. -/
def c4audio : AudioAnalysis :=
  { averageVolume := -20
    peakVolume := 0
    volumeVariance := 20
    silencePeriods := []
    loudMoments := [{ timestamp := 5, volume := -10 }, { timestamp := 6, volume := -10 },
      { timestamp := 7, volume := -10 }, { timestamp := 8, volume := -10 },
      { timestamp := 9, volume := -10 }]
    energyScore := 1 }

/-- Scene input for the C4 counterexample: the ideal scene-change rate of
8/min and more than one scene. -/
def c4scene : SceneAnalysis :=
  { scenes := [{ start := 0, stop := 10 }, { start := 10, stop := 20 }]
    sceneChanges := [{ timestamp := 10, score := 0.5 }]
    averageSceneLength := 10
    sceneChangeRate := 8 }

/-- Speech input for the C4 counterexample: the maximal in-range speech score
1 with no transcripts. -/
def c4speech : SpeechAnalysis :=
  { transcripts := []
    totalWords := 20
    speechDensity := 3
    keyPhrases := []
    viralTriggers := []
    speechScore := 1 }

/-- Metadata for the C4 counterexample: mid-video position and 30 s duration,
so both the 1.05 position bonus and the 1.03 duration bonus fire. -/
def c4meta : SegmentMetadata :=
  { position := 0.5, duration := 30, totalDuration := 60 }

/-- C4 counterexample: at in-range inputs the `engagement` component of the
signals map exceeds 1 (it equals `0.96 * 1.05 * 1.03 = 1.03824`), so it is not
true that every component of the signals map lies in `[0,1]`. -/
theorem c4_counterexample :
    1 < (calculateRetentionScore c4audio c4scene c4speech c4meta).signals.engagement ∧
    (calculateRetentionScore c4audio c4scene c4speech c4meta).signals.engagement = 1.03824 := by
  have ha : scoreAudioEngagement c4audio = 0.9 := by
    norm_num [scoreAudioEngagement, c4audio, min_def]
  have hv : scoreVisualEngagement c4scene = 1 := by
    norm_num [scoreVisualEngagement, c4scene, min_def, max_def]
  have hd : detectHook c4speech c4audio c4meta.position = false := by
    norm_num [detectHook, c4speech, c4audio, c4meta]
  constructor <;>
    norm_num [calculateRetentionScore, ha, hv, hd, c4speech, c4meta,
      applyPositionBonus, applyDurationBonus]

/-- C4 witness: the amended bounds instantiated at the counterexample inputs,
whose speech score 1 satisfies the range hypotheses. -/
theorem c4_signal_bounds_witness :
    0 ≤ (calculateRetentionScore c4audio c4scene c4speech c4meta).compositeScore ∧
    (calculateRetentionScore c4audio c4scene c4speech c4meta).compositeScore ≤ 1 := by
  have h := c4_signal_bounds c4audio c4scene c4speech c4meta
    (by norm_num [c4speech]) (by norm_num [c4speech])
  exact ⟨h.1, h.2.1⟩

/-! ## Claim C6 -/

theorem anyFilterHooks (l : List Transcript) :
    (((l.filter (fun t => decide (t.startTime < 3))).any fun t => matchesQuestionHook t.text) ||
      ((l.filter (fun t => decide (t.startTime < 3))).any fun t => matchesExcitementHook t.text)) =
    (l.any fun t => decide (t.startTime < 3) &&
      (matchesQuestionHook t.text || matchesExcitementHook t.text)) := by
  simp only [List.any_filter]
  induction l with
  | nil => rfl
  | cons t rest ih =>
    simp only [List.any_cons]
    cases h : decide (t.startTime < 3) <;>
      cases hq : matchesQuestionHook t.text <;>
        cases he : matchesExcitementHook t.text <;>
          simp [h, hq, he, ih]

theorem detectHook_eq (sp : SpeechAnalysis) (a : AudioAnalysis) (position : ℚ) :
    detectHook sp a position =
      (((sp.transcripts.any fun t => decide (t.startTime < 3) &&
          (matchesQuestionHook t.text || matchesExcitementHook t.text)) ||
        (a.loudMoments.any fun lm => decide (lm.timestamp < 3))) &&
        decide (position < 0.3)) := by
  simp only [detectHook]
  rw [anyFilterHooks sp.transcripts]

/-- C6 (amended): the speech component is raised by 0.25 (capped at 1) before
the composite is computed exactly when the window position is below 0.3 and
either a transcript starting in the first 3 s matches the hook trigger sets of
the code — the question set `{what, how, why, did you know, imagine, watch}`
(`matchesQuestionHook`) or the excitement set `{wait, no way, crazy, insane,
shocking, unbelievable}` (`matchesExcitementHook`) — or a loud moment occurs in
the first 3 s; otherwise the speech component is unchanged. -/
theorem c6_hook_boost (a : AudioAnalysis) (s : SceneAnalysis) (sp : SpeechAnalysis)
    (m : SegmentMetadata) :
    (calculateRetentionScore a s sp m).signals.speech =
      (if ((sp.transcripts.any fun t => decide (t.startTime < 3) &&
            (matchesQuestionHook t.text || matchesExcitementHook t.text)) ||
          (a.loudMoments.any fun lm => decide (lm.timestamp < 3))) && decide (m.position < 0.3)
        then min 1 (sp.speechScore + 0.25) else sp.speechScore) := by
  simp only [calculateRetentionScore, detectHook_eq]

/-- Audio input for the C6 counterexample: no loud moments. -/
def c6audio : AudioAnalysis :=
  { averageVolume := -30
    peakVolume := -10
    volumeVariance := 20
    silencePeriods := []
    loudMoments := []
    energyScore := 0.5 }

/-- Speech input for the C6 counterexample: the word `amazing` — an excitement
trigger of the claim's lexicon — spoken in the first 3 s. -/
def c6speech : SpeechAnalysis :=
  { transcripts := [{ text := ["amazing"], startTime := 0, endTime := 1 }]
    totalWords := 1
    speechDensity := 1
    keyPhrases := []
    viralTriggers := [{ phrase := "amazing", timestamp := 0, score := 0.9 }]
    speechScore := 0.5 }

/-- Metadata for the C6 counterexample: relative position 0.1 < 0.3. -/
def c6meta : SegmentMetadata :=
  { position := 0.1, duration := 30, totalDuration := 300 }

/-- C6 counterexample: the transcript contains the claimed excitement trigger
`amazing` within the first 3 s and the position is below 0.3, yet the speech
component of the result is the unchanged 0.5, not `0.5 + 0.25`: the code's
hook sets do not contain `amazing` (nor `incredible`, `wow`, `when`, `where`),
so the claim's trigger lexicon is wrong. -/
theorem c6_counterexample :
    (c6speech.transcripts.any fun t =>
      decide (t.startTime < 3) && t.text.contains "amazing") = true ∧
    c6meta.position < 0.3 ∧
    (calculateRetentionScore c6audio fallbackSceneScore c6speech c6meta).signals.speech = 0.5 ∧
    (calculateRetentionScore c6audio fallbackSceneScore c6speech c6meta).signals.speech ≠
      min 1 (c6speech.speechScore + 0.25) := by
  have hd : detectHook c6speech c6audio c6meta.position = false := by
    norm_num [detectHook, c6speech, c6audio, c6meta, matchesQuestionHook,
      matchesExcitementHook, questionHookWords, questionHookPhrase, excitementHookWords,
      excitementHookPhrase, hasSeq, List.isPrefixOf]
    decide
  refine ⟨by norm_num [c6speech], by norm_num [c6meta], ?_, ?_⟩
  · simp only [calculateRetentionScore, hd, Bool.false_eq_true, if_false]
    norm_num [c6speech]
  · simp only [calculateRetentionScore, hd, Bool.false_eq_true, if_false]
    norm_num [c6speech, min_def]

/-! ## Claim C5 -/

theorem floor_diff_bounds (S E : ℚ) (hlen : 15 ≤ E - S) (hup : E ≤ S + 30) :
    (15 : ℤ) ≤ ⌊E⌋ - ⌊S⌋ ∧ ⌊E⌋ - ⌊S⌋ ≤ 60 := by
  have h1 : (↑⌊S⌋ : ℚ) ≤ S := Int.floor_le S
  have h2 : S - 1 < ↑⌊S⌋ := Int.sub_one_lt_floor S
  have h3 : (↑⌊E⌋ : ℚ) ≤ E := Int.floor_le E
  have h4 : E - 1 < ↑⌊E⌋ := Int.sub_one_lt_floor E
  constructor
  · have hq : ((14 : ℤ) : ℚ) < ((⌊E⌋ - ⌊S⌋ : ℤ) : ℚ) := by push_cast; linarith
    have hz : (14 : ℤ) < ⌊E⌋ - ⌊S⌋ := by exact_mod_cast hq
    omega
  · have hq : ((⌊E⌋ - ⌊S⌋ : ℤ) : ℚ) < ((31 : ℤ) : ℚ) := by push_cast; linarith
    have hz : ⌊E⌋ - ⌊S⌋ < (31 : ℤ) := by exact_mod_cast hq
    omega

theorem floor_start_bound (us S : ℚ) (h : us ≤ S) : us - 1 < ↑⌊S⌋ :=
  lt_of_le_of_lt (by linarith) (Int.sub_one_lt_floor S)

theorem floor_stop_bound (ue E : ℚ) (h : E ≤ ue) : (↑⌊E⌋ : ℚ) ≤ ue :=
  le_trans (Int.floor_le E) h

theorem slidingWindowAt_bounds (us ue t : ℚ) (w : Window)
    (h : slidingWindowAt us ue t = some w) :
    (15 : ℤ) ≤ w.stop - w.start ∧ w.stop - w.start ≤ 60 ∧
    us - 1 < (w.start : ℚ) ∧ (w.stop : ℚ) ≤ ue := by
  simp only [slidingWindowAt, MIN_CLIP, MAX_CLIP, PREFERRED] at h
  have hs_ge : us ≤ max us (t - 30 / 2) := le_max_left _ _
  have hmin30_ue : min ue (max us (t - 30 / 2) + 30) ≤ ue := min_le_left _ _
  have hmin30_le : min ue (max us (t - 30 / 2) + 30) ≤ max us (t - 30 / 2) + 30 :=
    min_le_right _ _
  have hmin15_ue : min ue (max us (t - 30 / 2) + 15) ≤ ue := min_le_left _ _
  have hmin15_le : min ue (max us (t - 30 / 2) + 15) ≤ max us (t - 30 / 2) + 15 :=
    min_le_right _ _
  split_ifs at h with h1 h2 h3 h3 h2 h3 h3 <;>
    first
      | (exfalso; linarith)
      | (obtain rfl := (Option.some.inj h).symm
         refine ⟨?_, ?_, ?_, ?_⟩ <;> dsimp only)
  all_goals try simp at h
  all_goals
    first
      | exact (floor_diff_bounds _ _ (by linarith) (by linarith)).1
      | exact (floor_diff_bounds _ _ (by linarith) (by linarith)).2
      | exact floor_start_bound _ _ (by linarith)
      | exact floor_stop_bound _ _ (by linarith)

/-- C5 (amended): every window emitted by `generateSlidingWindows` satisfies
`MIN_CLIP ≤ end − start ≤ MAX_CLIP` and `end ≤ D − skip_outro`, but the
emitted integer `start` is the floor of a value at least `skip_intro` and so
only satisfies `skip_intro − 1 < start`: when `skip_intro` is fractional the
emitted start undershoots it by less than one second. -/
theorem generateSlidingWindows_rep (D : ℚ) :
    generateSlidingWindows D =
      (List.range (windowStepCount (skipIntro D) (D - skipOutro D))).filterMap
        (fun (k : ℕ) => slidingWindowAt (skipIntro D) (D - skipOutro D)
          (skipIntro D + STEP * (k : ℚ))) := rfl

theorem c5_window_bounds (D : ℚ) (w : Window) (hw : w ∈ generateSlidingWindows D) :
    MIN_CLIP ≤ (w.stop : ℚ) - (w.start : ℚ) ∧
    (w.stop : ℚ) - (w.start : ℚ) ≤ MAX_CLIP ∧
    skipIntro D - 1 < (w.start : ℚ) ∧ (w.stop : ℚ) ≤ D - skipOutro D := by
  rw [generateSlidingWindows_rep, List.mem_filterMap] at hw
  obtain ⟨k, _, hsome⟩ := hw
  have hb := slidingWindowAt_bounds _ _ _ w hsome
  refine ⟨?_, ?_, hb.2.2.1, hb.2.2.2⟩
  · simp only [MIN_CLIP]
    exact_mod_cast hb.1
  · simp only [MAX_CLIP]
    exact_mod_cast hb.2.1

/-- C5 counterexample: at `D = 101` the first emitted window is `(12, 42)`
while `skip_intro = 12.12`, so it is not true that every emitted window has
`skip_intro ≤ start`: the source floors the fractional start `12.12` down to
the integer 12. -/
theorem c5_counterexample :
    ¬ (∀ w ∈ generateSlidingWindows 101, skipIntro 101 ≤ (w.start : ℚ)) := by
  intro hcl
  have hmem : ({ start := 12, stop := 42 } : Window) ∈ generateSlidingWindows 101 := by
    rw [generateSlidingWindows_rep]
    refine List.mem_filterMap.mpr ⟨0, List.mem_range.mpr ?_, ?_⟩
    · norm_num [windowStepCount, skipIntro, skipOutro, MIN_CLIP, STEP]
    · norm_num [slidingWindowAt, skipIntro, skipOutro, MIN_CLIP, MAX_CLIP, STEP,
        PREFERRED, min_def, max_def]
  have h := hcl _ hmem
  norm_num [skipIntro] at h

/-- C5 witness: the amended bounds instantiated at `D = 101` on the first
emitted window `(12, 42)`. -/
theorem c5_window_bounds_witness :
    MIN_CLIP ≤ ((42 : ℤ) : ℚ) - ((12 : ℤ) : ℚ) ∧
    skipIntro 101 - 1 < ((12 : ℤ) : ℚ) := by
  have h := c5_window_bounds 101 { start := 12, stop := 42 } (by
    rw [generateSlidingWindows_rep]
    refine List.mem_filterMap.mpr ⟨0, List.mem_range.mpr ?_, ?_⟩
    · norm_num [windowStepCount, skipIntro, skipOutro, MIN_CLIP, STEP]
    · norm_num [slidingWindowAt, skipIntro, skipOutro, MIN_CLIP, MAX_CLIP, STEP,
        PREFERRED, min_def, max_def])
  exact ⟨h.1, h.2.2.1⟩

/-! ## Claim C8 -/

/-- C8: when the transcription endpoint fails (HTTP error, or any response
whose word list comes back empty), the extraction worker still uploads the cut
clip and its thumbnail under the deterministic keys, inserts the Clip row, the
task does not fail, and the Segment is updated to `extracted` with
`has_captions = false` and `caption_style = null`. -/
theorem c8_transcription_failure_graceful (db : Db) (env : ExtractionEnv)
    (segmentId videoId videoTitle : String) (segmentReason : Option String)
    (hfail : transcribeWithWhisper env.transcription = []) :
    (extractionWorkerRun db env segmentId videoId videoTitle segmentReason).taskFailed = false ∧
    (extractionWorkerRun db env segmentId videoId videoTitle segmentReason).segmentUpdate =
      some { status := "extracted", hasCaptions := false, captionStyle := none,
             captionData := none } ∧
    (extractionWorkerRun db env segmentId videoId videoTitle segmentReason).db.clips =
      db.clips ++
        [{ segmentId := segmentId
           videoId := videoId
           s3Key := "clips/" ++ videoId ++ "/" ++ segmentId ++ ".mp4"
           thumbnailKey := some ("thumbnails/" ++ videoId ++ "/" ++ segmentId ++ ".jpg")
           title := videoTitle ++ " - Clip"
           description := segmentReason.getD "Auto-generated clip"
           status := "ready_for_review"
           youtubeId := none }] ∧
    (extractionWorkerRun db env segmentId videoId videoTitle segmentReason).uploads =
      ["clips/" ++ videoId ++ "/" ++ segmentId ++ ".mp4",
       "thumbnails/" ++ videoId ++ "/" ++ segmentId ++ ".jpg"] := by
  have hcap : captionPhase env = none := by
    unfold captionPhase generateViralCaptions
    rw [hfail]
    simp
  unfold extractionWorkerRun
  rw [hcap]
  simp [clipCreate]

/-- C8 witness: the graceful-degradation conclusions at a concrete HTTP-error
environment and empty database. -/
theorem c8_transcription_failure_witness :
    (extractionWorkerRun { videos := [], clips := [] }
      { captionsEnabled := true, apiKeyPresent := true,
        transcription := TranscriptionOutcome.httpError,
        assBurnFails := false, srtBurnFails := false }
      "seg1" "vid1" "My Video" none).taskFailed = false ∧
    (extractionWorkerRun { videos := [], clips := [] }
      { captionsEnabled := true, apiKeyPresent := true,
        transcription := TranscriptionOutcome.httpError,
        assBurnFails := false, srtBurnFails := false }
      "seg1" "vid1" "My Video" none).segmentUpdate =
      some { status := "extracted", hasCaptions := false, captionStyle := none,
             captionData := none } := by
  have h := c8_transcription_failure_graceful { videos := [], clips := [] }
    { captionsEnabled := true, apiKeyPresent := true,
      transcription := TranscriptionOutcome.httpError,
      assBurnFails := false, srtBurnFails := false }
    "seg1" "vid1" "My Video" none rfl
  exact ⟨h.1, h.2.1⟩

/-! ## Claim C7 -/

/-- Metadata used in the C7 double-delivery scenario. -/
def c7meta : DownloadMetadata :=
  { title := some "My Video", description := none, duration := some 300, thumbnail := none }

/-- Job row used in the C7 double-delivery scenario. -/
def c7job : JobRow :=
  { status := "queued", progress := 0, currentStep := "", completedAt := none }

/-- Extraction environment used in the C7 double-delivery scenario: captions
disabled, so the run is caption-free. -/
def c7env : ExtractionEnv :=
  { captionsEnabled := false, apiKeyPresent := false,
    transcription := TranscriptionOutcome.httpError,
    assBurnFails := false, srtBurnFails := false }

/-- C7: re-delivering a download task leaves exactly one Video row (the second
`video.create` hits the unique constraint on `youtubeId` and its task fails),
but re-delivering an extraction task for the same Segment inserts a second
Clip row: the schema has no unique constraint on `Clip.segmentId` (only the
non-unique index `Clip_segmentId_idx`), so no unique-constraint violation
occurs and the duplicate insert succeeds, leaving two Clip rows for the
segment. -/
theorem c7_redelivery_row_counts :
    ((downloadWorkerRun { videos := [], clips := [] } c7job
        "https://www.youtube.com/watch?v=abc123" "u1" c7meta).db.videos.length = 1) ∧
    ((downloadWorkerRun (downloadWorkerRun { videos := [], clips := [] } c7job
        "https://www.youtube.com/watch?v=abc123" "u1" c7meta).db c7job
        "https://www.youtube.com/watch?v=abc123" "u1" c7meta).db.videos.length = 1) ∧
    ((downloadWorkerRun (downloadWorkerRun { videos := [], clips := [] } c7job
        "https://www.youtube.com/watch?v=abc123" "u1" c7meta).db c7job
        "https://www.youtube.com/watch?v=abc123" "u1" c7meta).taskFailed = true) ∧
    (((extractionWorkerRun (extractionWorkerRun { videos := [], clips := [] } c7env
        "seg1" "vid1" "My Video" none).db c7env
        "seg1" "vid1" "My Video" none).db.clips.filter
          (fun c => c.segmentId = "seg1")).length = 2) ∧
    ((extractionWorkerRun (extractionWorkerRun { videos := [], clips := [] } c7env
        "seg1" "vid1" "My Video" none).db c7env
        "seg1" "vid1" "My Video" none).taskFailed = false) := by
  refine ⟨?_, ?_, ?_, ?_, ?_⟩ <;>
    simp [downloadWorkerRun, extractionWorkerRun, extractVideoId, extractVideoIdAux,
      captureExternalId, urlPatternA, urlPatternB, urlStopChars, videoCreate, clipCreate,
      captionPhase, c7meta, c7job, c7env, updateJobStatus]

/-! ## Concrete evaluation of the analysis pipeline at duration 30 -/

/-- The retention analysis the scorer produces for the duration-30 scenario
windows `(3, 27)` under the fallback analyzer outputs. -/
def c1retention : RetentionAnalysis :=
  { compositeScore := 0.36309
    audioScore := 0.518
    visualScore := 0
    speechScore := 0.5
    confidence := 0.75
    signals := { audio := 0.518, visual := 0, speech := 0.5, engagement := 0.36309 }
    reason := "Standard segment - baseline audio 📊" }

theorem windows30_eval : generateSlidingWindows 30 =
    [{ start := 3, stop := 27 }, { start := 3, stop := 27 }] := by
  rw [generateSlidingWindows_rep]
  have hcount : windowStepCount (skipIntro 30) (30 - skipOutro 30) = 2 := by
    norm_num [windowStepCount, skipIntro, skipOutro, MIN_CLIP, STEP, min_def]
  rw [hcount, show List.range 2 = [0, 1] from rfl]
  norm_num [slidingWindowAt, skipIntro, skipOutro, MIN_CLIP, MAX_CLIP, STEP, PREFERRED,
    min_def, max_def, List.filterMap_cons, List.filterMap_nil]

theorem retention30_eval :
    calculateRetentionScore fallbackAudioScore fallbackSceneScore fallbackSpeechScore
      { position := ((3 : ℤ) : ℚ) / 30, duration := ((27 : ℤ) : ℚ) - ((3 : ℤ) : ℚ),
        totalDuration := 30 } = c1retention := by
  have hd : detectHook fallbackSpeechScore fallbackAudioScore (((3 : ℤ) : ℚ) / 30) = false := by
    norm_num [detectHook, fallbackSpeechScore, fallbackAudioScore]
  have ha : scoreAudioEngagement fallbackAudioScore = 0.518 := by
    norm_num [scoreAudioEngagement, fallbackAudioScore, min_def, max_def]
  have hv : scoreVisualEngagement fallbackSceneScore = 0 := by
    norm_num [scoreVisualEngagement, fallbackSceneScore, min_def, max_def]
  simp only [calculateRetentionScore, hd, ha, hv, Bool.false_eq_true, if_false]
  norm_num [fallbackSpeechScore, fallbackSceneScore, fallbackAudioScore, calculateConfidence,
    generateReason, dominantFactor, applyPositionBonus, applyDurationBonus, c1retention,
    min_def, max_def, RetentionAnalysis.mk.injEq, Signals.mk.injEq]
  rfl

theorem rank30_eval :
    rankSegments (analyzeCandidates 30 fallbackAnalyzers) 8 =
      [{ analysis := c1retention, start := 3, stop := 27,
         audio := fallbackAudioScore, scenes := fallbackSceneScore,
         speech := fallbackSpeechScore, rank := 1,
         adjustedStart := some 2.5, adjustedEnd := some 27 }] := by
  have hcand : analyzeCandidates 30 fallbackAnalyzers =
      [{ analysis := c1retention, start := 3, stop := 27,
         audio := fallbackAudioScore, scenes := fallbackSceneScore,
         speech := fallbackSpeechScore },
       { analysis := c1retention, start := 3, stop := 27,
         audio := fallbackAudioScore, scenes := fallbackSceneScore,
         speech := fallbackSpeechScore }] := by
    unfold analyzeCandidates
    rw [windows30_eval]
    simp only [List.map_cons, List.map_nil, fallbackAnalyzers, retention30_eval]
    norm_num [AnalyzedSegment.mk.injEq]
  rw [rankSegments, hcand]
  have hsort : sortByScore
      [{ analysis := c1retention, start := 3, stop := 27,
         audio := fallbackAudioScore, scenes := fallbackSceneScore,
         speech := fallbackSpeechScore },
       { analysis := c1retention, start := 3, stop := 27,
         audio := fallbackAudioScore, scenes := fallbackSceneScore,
         speech := fallbackSpeechScore }] =
      [{ analysis := c1retention, start := 3, stop := 27,
         audio := fallbackAudioScore, scenes := fallbackSceneScore,
         speech := fallbackSpeechScore },
       { analysis := c1retention, start := 3, stop := 27,
         audio := fallbackAudioScore, scenes := fallbackSceneScore,
         speech := fallbackSpeechScore }] := by
    norm_num [sortByScore, insertByScore, scoreBefore]
  rw [hsort]
  have hadj : adjustSegmentBoundaries 3 27 fallbackSceneScore fallbackSpeechScore =
      { start := 2.5, stop := 27 } := by
    norm_num [adjustSegmentBoundaries, findNearestSceneBoundary, lastTranscriptNear,
      floorTenth, fallbackSceneScore, fallbackSpeechScore, max_def, AdjustedBounds.mk.injEq]
  norm_num [selectLoop, overlapsSelected, hadj]

/-! ## Claim C1 -/

/-- C1: the completion aggregation the claim describes does not exist in the
code. On the duration-30 scenario the analysis worker persists one Segment row
and then immediately sets the Job to `completed` with `progress = 100` while
zero Clip rows exist (0 < 1 segment) and `completedAt` stays null; and the
extraction worker's `updateJobProgress` — the only Job write on the extraction
path — never changes `status` and never sets `completedAt`, so no worker ever
performs the claimed `clips ≥ segments > 0` aggregation. -/
theorem c1_completion_divergence :
    (analysisWorkerRun
      { status := "analyzing", progress := 40, currentStep := "", completedAt := none }
      "vid" 30 fallbackAnalyzers).segments.length = 1 ∧
    (analysisWorkerRun
      { status := "analyzing", progress := 40, currentStep := "", completedAt := none }
      "vid" 30 fallbackAnalyzers).job =
      { status := "completed", progress := 100,
        currentStep := "Analysis complete • 1 clips queued", completedAt := none } ∧
    (∀ (j : JobRow) (total extracted : ℕ),
      (updateJobProgress j total extracted).status = j.status ∧
      (updateJobProgress j total extracted).completedAt = j.completedAt) := by
  refine ⟨?_, ?_, ?_⟩
  · unfold analysisWorkerRun
    rw [rank30_eval]
    simp
  · unfold analysisWorkerRun
    rw [rank30_eval]
    simp only [updateJobStatus, List.map_cons, List.map_nil, List.length_cons,
      List.length_nil]
    rfl
  · intro j total extracted
    unfold updateJobProgress
    exact ⟨rfl, rfl⟩

/-! ## Claim C2 -/

/-- C2: the Segment row persisted by the analysis worker carries the raw
candidate window times, not the snapped/buffered/extended times: on the
duration-30 scenario the ranked candidate `(3, 27)` has adjusted bounds
`(2.5, 27)` (hook buffer 0.5 s before the window), yet `prisma.segment.create`
writes `startTime = r.start = 3`; the computed `adjustedStart`/`adjustedEnd`
are attached to the ranked record and then never read. -/
theorem c2_raw_times_persisted :
    ((analysisWorkerRun
        { status := "analyzing", progress := 40, currentStep := "", completedAt := none }
        "vid" 30 fallbackAnalyzers).segments.map
      (fun r => (r.startTime, r.endTime))) = [((3 : ℚ), (27 : ℚ))] ∧
    ((rankSegments (analyzeCandidates 30 fallbackAnalyzers) 8).map
      (fun r => (r.adjustedStart, r.adjustedEnd))) = [(some (2.5 : ℚ), some (27 : ℚ))] ∧
    (3 : ℚ) ≠ 2.5 := by
  refine ⟨?_, ?_, by norm_num⟩
  · unfold analysisWorkerRun
    rw [rank30_eval]
    simp [segmentRowOf]
  · rw [rank30_eval]
    simp

end Shortly
